import Mathlib

/-!
Verification of the `ApigwHttpApiLambdaDynamodbPythonCdkStack` declaration
(`stacks/apigw_http_api_lambda_dynamodb_python_cdk_stack.py`).

The stack constructor is a straight-line sequence of resource declarations.
We embed it as a pure function from its constructor inputs to a record of
every declared resource with its configuration, mirroring the source
statement by statement, and prove configuration-correctness properties of
the resulting resource graph.
-/

namespace ApigwStack

/-- `ec2.SubnetType` values relevant to the stack. -/
inductive SubnetType
  | PRIVATE_ISOLATED
  | PRIVATE_WITH_EGRESS
  | PUBLIC
deriving DecidableEq, Repr

/-- One entry of `subnet_configuration` (`ec2.SubnetConfiguration`). -/
structure SubnetConfiguration where
  name : String
  subnet_type : SubnetType
  cidr_mask : Nat
deriving DecidableEq, Repr

/-- Declaration of the `ec2.Vpc` construct. -/
structure VpcProps where
  construct_id : String
  cidr : String
  subnet_configuration : List SubnetConfiguration
deriving DecidableEq, Repr

/-- `ec2.FlowLogTrafficType`. -/
inductive FlowLogTrafficType
  | ALL
  | ACCEPT
  | REJECT
deriving DecidableEq, Repr

/-- `logs.RetentionDays` values relevant to the stack. -/
inductive RetentionDays
  | ONE_YEAR
  | ONE_MONTH
deriving DecidableEq, Repr

/-- `RemovalPolicy`. -/
inductive RemovalPolicy
  | DESTROY
  | RETAIN
deriving DecidableEq, Repr

/-- Declaration of a `logs.LogGroup` construct. -/
structure LogGroupProps where
  construct_id : String
  retention : RetentionDays
  removal_policy : RemovalPolicy
deriving DecidableEq, Repr

/-- The `vpc.add_flow_log` declaration. -/
structure FlowLogProps where
  id : String
  destination : String
  traffic_type : FlowLogTrafficType
deriving DecidableEq, Repr

/-- IAM principals appearing in the stack (`iam.AnyPrincipal()`). -/
inductive Principal
  | AnyPrincipal
deriving DecidableEq, Repr

/-- An `iam.PolicyStatement`. -/
structure PolicyStatement where
  principals : List Principal
  actions : List String
  resources : List String
deriving DecidableEq, Repr

/-- Services reachable through a gateway VPC endpoint. -/
inductive GatewayService
  | DYNAMODB
  | S3
deriving DecidableEq, Repr

/-- Declaration of an `ec2.GatewayVpcEndpoint`, with the policy statements
added by `add_to_policy`. -/
structure GatewayVpcEndpointProps where
  construct_id : String
  service : GatewayService
  vpc : String
  policy : List PolicyStatement
deriving DecidableEq, Repr

/-- Services reachable through an interface VPC endpoint. -/
inductive InterfaceService
  | XRAY
deriving DecidableEq, Repr

/-- `ec2.SubnetSelection` as used in the stack (`subnet_type=...`). -/
structure SubnetSelection where
  subnet_type : SubnetType
deriving DecidableEq, Repr

/-- Declaration of an `ec2.InterfaceVpcEndpoint`. -/
structure InterfaceVpcEndpointProps where
  construct_id : String
  vpc : String
  service : InterfaceService
  subnets : SubnetSelection
deriving DecidableEq, Repr

/-- `dynamodb_.AttributeType` values. -/
inductive AttributeType
  | STRING
  | NUMBER
  | BINARY
deriving DecidableEq, Repr

/-- A `dynamodb_.Attribute` (key attribute declaration). -/
structure TableAttribute where
  name : String
  type : AttributeType
deriving DecidableEq, Repr

/-- Declaration of a `dynamodb_.Table`. `table_name` is the optional
explicit physical name; the source passes none, leaving the physical
name provider-generated. -/
structure TableProps where
  construct_id : String
  partition_key : TableAttribute
  sort_key : Option TableAttribute
  table_name : Option String
  point_in_time_recovery : Bool
deriving DecidableEq, Repr

/-- How a resource gets its physical (deploy-time) name: generated by the
provider from the logical id, or fixed to an explicit literal. -/
inductive PhysicalName
  | generated (logical_id : String)
  | fixed (name : String)
deriving DecidableEq, Repr

/-- Physical-name resolution for a table: an explicit `table_name` prop
fixes the name; otherwise the provider generates one from the logical id. -/
def TableProps.physical_name (t : TableProps) : PhysicalName :=
  match t.table_name with
  | some n => PhysicalName.fixed n
  | none => PhysicalName.generated t.construct_id

/-- Deploy-time tokens: lazily-resolved attribute references such as
`demo_table.table_name` and `api.url`. -/
inductive CdkToken
  | table_name_of (construct_id : String)
  | url_of (construct_id : String)
deriving DecidableEq, Repr

/-- Stringification of a token, as happens when a token is interpolated
into an f-string at synthesis time (an unresolved placeholder, not the
concrete deploy-time value). -/
def token_str : CdkToken → String
  | CdkToken.table_name_of cid => "$\x7bToken[" ++ cid ++ ".tableName]\x7d"
  | CdkToken.url_of cid => "$\x7bToken[" ++ cid ++ ".url]\x7d"

/-- An environment-variable value: a literal string or a deploy-time token. -/
inductive EnvValue
  | lit (s : String)
  | token (t : CdkToken)
deriving DecidableEq, Repr

/-- `lambda_.Runtime` values relevant to the stack. -/
inductive LambdaRuntime
  | PYTHON_3_9
deriving DecidableEq, Repr

/-- `lambda_.Tracing` values. -/
inductive Tracing
  | ACTIVE
  | PASS_THROUGH
  | DISABLED
deriving DecidableEq, Repr

/-- Declaration of the `lambda_.Function` construct, including environment
variables added afterwards via `add_environment`. -/
structure FunctionProps where
  construct_id : String
  function_name : Option String
  runtime : LambdaRuntime
  code_asset : String
  handler : String
  vpc : String
  vpc_subnets : SubnetSelection
  memory_size : Nat
  timeout_minutes : Nat
  log_retention : RetentionDays
  tracing : Tracing
  environment : List (String × EnvValue)
deriving DecidableEq, Repr

/-- A table-access grant declared in the stack. The source only ever calls
`grant_write_data`; the read and read/write forms exist in the grant
vocabulary so that their absence is a meaningful statement. -/
inductive Grant
  | write_data (table_cid : String) (grantee_cid : String)
  | read_data (table_cid : String) (grantee_cid : String)
  | read_write_data (table_cid : String) (grantee_cid : String)
  | full_access (table_cid : String) (grantee_cid : String)
deriving DecidableEq, Repr

/-- Whether a grant confers any read capability on the table. -/
def Grant.grants_read : Grant → Bool
  | Grant.write_data _ _ => false
  | Grant.read_data _ _ => true
  | Grant.read_write_data _ _ => true
  | Grant.full_access _ _ => true

/-- Whether a grant is broader than a plain write grant. -/
def Grant.broader_than_write : Grant → Bool
  | Grant.write_data _ _ => false
  | _ => true

/-- The nine boolean flags of
`apigw_.AccessLogFormat.json_with_standard_fields`. -/
structure AccessLogStandardFields where
  caller : Bool
  http_method : Bool
  ip : Bool
  protocol : Bool
  request_time : Bool
  resource_path : Bool
  response_length : Bool
  status : Bool
  user : Bool
deriving DecidableEq, Repr

/-- `apigw_.StageOptions` as used for `deploy_options`. -/
structure StageOptions where
  access_log_destination : String
  access_log_format : AccessLogStandardFields
  tracing_enabled : Bool
deriving DecidableEq, Repr

/-- Declaration of the `apigw_.LambdaRestApi` construct. -/
structure LambdaRestApiProps where
  construct_id : String
  handler : String
  deploy_options : StageOptions
deriving DecidableEq, Repr

/-- The `api.url` attribute: a deploy-time token interpolating as an
unresolved placeholder at synthesis time. -/
def LambdaRestApiProps.url (a : LambdaRestApiProps) : String :=
  token_str (CdkToken.url_of a.construct_id)

/-- A metric reference passed to an alarm: each constructor records the
construct id of the resource whose metric method produced it
(`api_hanlder.metric_errors()`, `api.metric_server_error()`,
`api.metric_client_error()`, `canary.metric_failed()`). -/
inductive MetricRef
  | lambda_errors (fn_cid : String)
  | api_server_error (api_cid : String)
  | api_client_error (api_cid : String)
  | canary_failed (canary_cid : String)
deriving DecidableEq, Repr

/-- The construct id of the resource a metric reference points at. -/
def MetricRef.resource : MetricRef → String
  | MetricRef.lambda_errors c => c
  | MetricRef.api_server_error c => c
  | MetricRef.api_client_error c => c
  | MetricRef.canary_failed c => c

/-- Declaration of a `cloudwatch.Alarm`. -/
structure AlarmProps where
  construct_id : String
  metric : MetricRef
  threshold : Nat
  evaluation_periods : Nat
  alarm_description : String
deriving DecidableEq, Repr

/-- `s3.BucketEncryption` values. -/
inductive BucketEncryption
  | S3_MANAGED
deriving DecidableEq, Repr

/-- `s3.BlockPublicAccess` values. -/
inductive BlockPublicAccess
  | BLOCK_ALL
deriving DecidableEq, Repr

/-- Declaration of an `s3.Bucket`. -/
structure BucketProps where
  construct_id : String
  encryption : BucketEncryption
  block_public_access : BlockPublicAccess
  removal_policy : RemovalPolicy
  auto_delete_objects : Bool
deriving DecidableEq, Repr

/-- `synthetics.Runtime` values relevant to the stack. -/
inductive SyntheticsRuntime
  | SYNTHETICS_PYTHON_SELENIUM_3_0
deriving DecidableEq, Repr

/-- `synthetics.Schedule.rate(Duration.minutes(n))`. -/
structure ScheduleRate where
  minutes : Nat
deriving DecidableEq, Repr

/-- `synthetics.Test.custom` with inline code. -/
structure CanaryTest where
  code : String
  handler : String
deriving DecidableEq, Repr

/-- Declaration of the `synthetics.Canary` construct. -/
structure CanaryProps where
  construct_id : String
  runtime : SyntheticsRuntime
  test : CanaryTest
  artifacts_bucket : String
  schedule : ScheduleRate
  enable_auto_start : Bool
deriving DecidableEq, Repr

/-- Declaration of the `cloudtrail.Trail` construct. -/
structure TrailProps where
  construct_id : String
  bucket : String
  is_multi_region_trail : Bool
  include_global_service_events : Bool
deriving DecidableEq, Repr

/-- The constructor inputs of the stack: `scope`, `construct_id`, `kwargs`. -/
structure StackInputs where
  scope : String
  construct_id : String
  kwargs : List (String × String)
deriving DecidableEq, Repr

/-- The resource graph the stack constructor declares: every construct
instantiated in `__init__`, with its configuration. -/
structure StackGraph where
  scope : String
  construct_id : String
  kwargs : List (String × String)
  vpc : VpcProps
  vpc_flow_log_group : LogGroupProps
  flow_log : FlowLogProps
  dynamo_db_endpoint : GatewayVpcEndpointProps
  xray_endpoint : InterfaceVpcEndpointProps
  demo_table : TableProps
  api_hanlder : FunctionProps
  grants : List Grant
  api_log_group : LogGroupProps
  api : LambdaRestApiProps
  alarms : List AlarmProps
  canary_bucket : BucketProps
  canary : CanaryProps
  trail_bucket : BucketProps
  trail : TrailProps
deriving DecidableEq, Repr

/-- `TABLE_NAME = "demo_table"` (module-level constant in the source). -/
def TABLE_NAME : String := "demo_table"

/-- The part of the canary inline f-string before the `{api.url}`
interpolation (doubled braces in the f-string are literal braces). -/
def canary_script_pre : String :=
  "\nimport json\nfrom aws_synthetics.selenium import synthetics_webdriver as webdriver\nfrom aws_synthetics.common import synthetics_logger as logger\nfrom aws_synthetics.common import synthetics_configuration\n\ndef handler(event, context):\n    logger.info(\"Starting canary test\")\n    url = \""

/-- The part of the canary inline f-string after the `{api.url}`
interpolation. -/
def canary_script_post : String :=
  "\"\n    \n    # Configure synthetics\n    synthetics_configuration.set_config(\x7b\n        \"screenshot_on_step_start\": False,\n        \"screenshot_on_step_success\": False,\n        \"screenshot_on_step_failure\": True\n    \x7d)\n    \n    browser = webdriver.Chrome()\n    browser.set_page_load_timeout(30)\n    \n    try:\n        browser.get(url)\n        logger.info(f\"Successfully loaded \x7burl\x7d\")\n        logger.info(f\"Response status: \x7bbrowser.title\x7d\")\n    finally:\n        browser.quit()\n    \n    logger.info(\"Canary test completed successfully\")\n    return \x7b\"statusCode\": 200\x7d\n                "

/-- The canary inline script as a function of the interpolated URL string:
the Python f-string concatenates the fixed text around `{api.url}`. -/
def canary_script (url : String) : String :=
  canary_script_pre ++ url ++ canary_script_post

/-- The stack constructor
(`ApigwHttpApiLambdaDynamodbPythonCdkStack.__init__`), embedded statement
by statement as a pure function from its inputs to the declared resource
graph. -/
def mkStack (inputs : StackInputs) : StackGraph :=
  -- VPC
  let vpc : VpcProps :=
    { construct_id := "Ingress"
      cidr := "10.1.0.0/16"
      subnet_configuration :=
        [{ name := "Private-Subnet"
           subnet_type := SubnetType.PRIVATE_ISOLATED
           cidr_mask := 24 }] }
  -- Enable VPC Flow Logs
  let vpc_flow_log_group : LogGroupProps :=
    { construct_id := "VpcFlowLogs"
      retention := RetentionDays.ONE_YEAR
      removal_policy := RemovalPolicy.DESTROY }
  let flow_log : FlowLogProps :=
    { id := "FlowLog"
      destination := vpc_flow_log_group.construct_id
      traffic_type := FlowLogTrafficType.ALL }
  -- Create VPC endpoint for DynamoDB
  let dynamo_db_endpoint : GatewayVpcEndpointProps :=
    { construct_id := "DynamoDBVpce"
      service := GatewayService.DYNAMODB
      vpc := vpc.construct_id
      policy := [] }
  -- This allows to customize the endpoint policy
  let dynamo_db_endpoint : GatewayVpcEndpointProps :=
    { dynamo_db_endpoint with
      policy := dynamo_db_endpoint.policy ++
        [{ principals := [Principal.AnyPrincipal]
           actions := ["dynamodb:DescribeStream",
                       "dynamodb:DescribeTable",
                       "dynamodb:Get*",
                       "dynamodb:Query",
                       "dynamodb:Scan",
                       "dynamodb:CreateTable",
                       "dynamodb:Delete*",
                       "dynamodb:Update*",
                       "dynamodb:PutItem"]
           resources := ["*"] }] }
  -- Create VPC endpoint for X-Ray (required for Lambda in isolated subnets)
  let xray_endpoint : InterfaceVpcEndpointProps :=
    { construct_id := "XRayVpce"
      vpc := vpc.construct_id
      service := InterfaceService.XRAY
      subnets := { subnet_type := SubnetType.PRIVATE_ISOLATED } }
  -- Create DynamoDb Table with Point-in-Time Recovery
  let demo_table : TableProps :=
    { construct_id := TABLE_NAME
      partition_key := { name := "id", type := AttributeType.STRING }
      sort_key := none
      table_name := none
      point_in_time_recovery := true }
  -- Create the Lambda function to receive the request with X-Ray tracing
  let api_hanlder : FunctionProps :=
    { construct_id := "ApiHandler"
      function_name := some "apigw_handler"
      runtime := LambdaRuntime.PYTHON_3_9
      code_asset := "lambda/apigw-handler"
      handler := "index.handler"
      vpc := vpc.construct_id
      vpc_subnets := { subnet_type := SubnetType.PRIVATE_ISOLATED }
      memory_size := 1024
      timeout_minutes := 5
      log_retention := RetentionDays.ONE_YEAR
      tracing := Tracing.ACTIVE
      environment := [] }
  -- grant permission to lambda to write to demo table
  let grants : List Grant :=
    [Grant.write_data demo_table.construct_id api_hanlder.construct_id]
  let api_hanlder : FunctionProps :=
    { api_hanlder with
      environment := api_hanlder.environment ++
        [("TABLE_NAME",
          EnvValue.token (CdkToken.table_name_of demo_table.construct_id))] }
  -- Create log group for API Gateway access logs
  let api_log_group : LogGroupProps :=
    { construct_id := "ApiGatewayAccessLogs"
      retention := RetentionDays.ONE_YEAR
      removal_policy := RemovalPolicy.DESTROY }
  -- Create API Gateway with access logging and X-Ray tracing
  let api : LambdaRestApiProps :=
    { construct_id := "Endpoint"
      handler := api_hanlder.construct_id
      deploy_options :=
        { access_log_destination := api_log_group.construct_id
          access_log_format :=
            { caller := true
              http_method := true
              ip := true
              protocol := true
              request_time := true
              resource_path := true
              response_length := true
              status := true
              user := true }
          tracing_enabled := true } }
  -- S3 bucket for Canary artifacts
  let canary_bucket : BucketProps :=
    { construct_id := "CanaryArtifactsBucket"
      encryption := BucketEncryption.S3_MANAGED
      block_public_access := BlockPublicAccess.BLOCK_ALL
      removal_policy := RemovalPolicy.DESTROY
      auto_delete_objects := true }
  -- CloudWatch Synthetic Canary to monitor API endpoint
  let canary : CanaryProps :=
    { construct_id := "ApiCanary"
      runtime := SyntheticsRuntime.SYNTHETICS_PYTHON_SELENIUM_3_0
      test := { code := canary_script api.url, handler := "handler" }
      artifacts_bucket := canary_bucket.construct_id
      schedule := { minutes := 5 }
      enable_auto_start := true }
  -- CloudWatch Alarms (Lambda errors, API Gateway 5xx, API Gateway 4xx,
  -- Canary failures), in source order
  let alarms : List AlarmProps :=
    [{ construct_id := "LambdaErrorAlarm"
       metric := MetricRef.lambda_errors api_hanlder.construct_id
       threshold := 1
       evaluation_periods := 1
       alarm_description := "Alert when Lambda function errors occur" },
     { construct_id := "ApiGateway5xxAlarm"
       metric := MetricRef.api_server_error api.construct_id
       threshold := 5
       evaluation_periods := 2
       alarm_description := "Alert when API Gateway 5xx errors occur" },
     { construct_id := "ApiGateway4xxAlarm"
       metric := MetricRef.api_client_error api.construct_id
       threshold := 10
       evaluation_periods := 2
       alarm_description := "Alert when API Gateway 4xx errors exceed threshold" },
     { construct_id := "CanaryFailureAlarm"
       metric := MetricRef.canary_failed canary.construct_id
       threshold := 1
       evaluation_periods := 1
       alarm_description := "Alert when synthetic canary fails" }]
  -- Create S3 bucket for CloudTrail logs
  let trail_bucket : BucketProps :=
    { construct_id := "CloudTrailBucket"
      encryption := BucketEncryption.S3_MANAGED
      block_public_access := BlockPublicAccess.BLOCK_ALL
      removal_policy := RemovalPolicy.DESTROY
      auto_delete_objects := true }
  -- Create CloudTrail
  let trail : TrailProps :=
    { construct_id := "CloudTrail"
      bucket := trail_bucket.construct_id
      is_multi_region_trail := true
      include_global_service_events := true }
  { scope := inputs.scope
    construct_id := inputs.construct_id
    kwargs := inputs.kwargs
    vpc := vpc
    vpc_flow_log_group := vpc_flow_log_group
    flow_log := flow_log
    dynamo_db_endpoint := dynamo_db_endpoint
    xray_endpoint := xray_endpoint
    demo_table := demo_table
    api_hanlder := api_hanlder
    grants := grants
    api_log_group := api_log_group
    api := api
    alarms := alarms
    canary_bucket := canary_bucket
    canary := canary
    trail_bucket := trail_bucket
    trail := trail }

/-- The construct ids of every resource declared in the stack. -/
def declared_construct_ids (s : StackGraph) : List String :=
  [s.vpc.construct_id,
   s.vpc_flow_log_group.construct_id,
   s.dynamo_db_endpoint.construct_id,
   s.xray_endpoint.construct_id,
   s.demo_table.construct_id,
   s.api_hanlder.construct_id,
   s.api_log_group.construct_id,
   s.api.construct_id,
   s.canary_bucket.construct_id,
   s.canary.construct_id,
   s.trail_bucket.construct_id,
   s.trail.construct_id] ++ s.alarms.map (fun a => a.construct_id)

/-- The nine-element action allow-list the claim declares for the
DynamoDB endpoint policy. -/
def declared_allow_list : List String :=
  ["dynamodb:DescribeStream",
   "dynamodb:DescribeTable",
   "dynamodb:Get*",
   "dynamodb:Query",
   "dynamodb:Scan",
   "dynamodb:CreateTable",
   "dynamodb:Delete*",
   "dynamodb:Update*",
   "dynamodb:PutItem"]

end ApigwStack

namespace Claims

open ApigwStack

/-- C1: the policy attached to the DynamoDB gateway VPC endpoint consists of a
single statement that applies to any principal and to every resource, and its
action set is exactly the declared nine-action allow-list (DescribeStream,
DescribeTable, Get*, Query, Scan, CreateTable, Delete*, Update*, PutItem) —
no action outside that allow-list is admitted. -/
theorem c1_endpoint_policy_exact_allow_list (i : StackInputs) :
    (mkStack i).dynamo_db_endpoint.policy.length = 1 ∧
    ∀ st ∈ (mkStack i).dynamo_db_endpoint.policy,
      st.principals = [Principal.AnyPrincipal] ∧
      st.resources = ["*"] ∧
      ∀ a : String, a ∈ st.actions ↔ a ∈ declared_allow_list := by
  have hpol : (mkStack i).dynamo_db_endpoint.policy =
      [{ principals := [Principal.AnyPrincipal]
         actions := declared_allow_list
         resources := ["*"] }] := rfl
  refine ⟨by rw [hpol]; rfl, ?_⟩
  intro st hst
  rw [hpol, List.mem_singleton] at hst
  subst hst
  exact ⟨rfl, rfl, fun a => Iff.rfl⟩

/-- C2: the only table-access grant declared in the stack is the write-data
grant from the table to the Lambda function; every declared grant confers no
read capability and is no broader than a plain write grant. -/
theorem c2_only_grant_is_write_data (i : StackInputs) :
    (mkStack i).grants =
      [Grant.write_data (mkStack i).demo_table.construct_id
                        (mkStack i).api_hanlder.construct_id] ∧
    ∀ g ∈ (mkStack i).grants,
      Grant.grants_read g = false ∧ Grant.broader_than_write g = false := by
  have hg : (mkStack i).grants = [Grant.write_data TABLE_NAME "ApiHandler"] := rfl
  refine ⟨rfl, ?_⟩
  intro g hmem
  rw [hg, List.mem_singleton] at hmem
  subst hmem
  exact ⟨rfl, rfl⟩

/-- C3: every subnet configured in the VPC has type PRIVATE_ISOLATED, and the
Lambda function is placed in that VPC with a subnet selection that picks only
PRIVATE_ISOLATED subnets. -/
theorem c3_isolated_subnets (i : StackInputs) :
    (∀ cfg ∈ (mkStack i).vpc.subnet_configuration,
        cfg.subnet_type = SubnetType.PRIVATE_ISOLATED) ∧
    (mkStack i).api_hanlder.vpc = (mkStack i).vpc.construct_id ∧
    (mkStack i).api_hanlder.vpc_subnets.subnet_type =
      SubnetType.PRIVATE_ISOLATED := by
  have hcfg : (mkStack i).vpc.subnet_configuration =
      [{ name := "Private-Subnet"
         subnet_type := SubnetType.PRIVATE_ISOLATED
         cidr_mask := 24 }] := rfl
  refine ⟨?_, rfl, rfl⟩
  intro cfg hmem
  rw [hcfg, List.mem_singleton] at hmem
  subst hmem
  rfl

/-- C4: the declared table has exactly one key attribute — a partition key
named "id" of string type, no sort key — and point-in-time recovery enabled. -/
theorem c4_table_single_string_key_pitr (i : StackInputs) :
    (mkStack i).demo_table.partition_key =
      { name := "id", type := AttributeType.STRING } ∧
    (mkStack i).demo_table.sort_key = none ∧
    (mkStack i).demo_table.point_in_time_recovery = true :=
  ⟨rfl, rfl, rfl⟩

/-- C5: the REST API stage's access-log format sets all nine standard-field
flags (caller, http_method, ip, protocol, request_time, resource_path,
response_length, status, user) to true. -/
theorem c5_access_log_all_standard_fields (i : StackInputs) :
    (mkStack i).api.deploy_options.access_log_format =
      { caller := true
        http_method := true
        ip := true
        protocol := true
        request_time := true
        resource_path := true
        response_length := true
        status := true
        user := true } := rfl

/-- C6: the stack declares exactly four alarms — on Lambda errors, API
Gateway server errors, API Gateway client errors and canary failures, with
threshold/evaluation-period pairs 1/1, 5/2, 10/2 and 1/1 respectively — and
every alarm's metric references a resource declared in the same stack. -/
theorem c6_alarms_reference_declared_resources (i : StackInputs) :
    (mkStack i).alarms.map
        (fun a => (a.metric, a.threshold, a.evaluation_periods)) =
      [(MetricRef.lambda_errors (mkStack i).api_hanlder.construct_id, 1, 1),
       (MetricRef.api_server_error (mkStack i).api.construct_id, 5, 2),
       (MetricRef.api_client_error (mkStack i).api.construct_id, 10, 2),
       (MetricRef.canary_failed (mkStack i).canary.construct_id, 1, 1)] ∧
    ∀ a ∈ (mkStack i).alarms,
      MetricRef.resource a.metric ∈ declared_construct_ids (mkStack i) := by
  have hids : declared_construct_ids (mkStack i) =
      ["Ingress", "VpcFlowLogs", "DynamoDBVpce", "XRayVpce", TABLE_NAME,
       "ApiHandler", "ApiGatewayAccessLogs", "Endpoint",
       "CanaryArtifactsBucket", "ApiCanary", "CloudTrailBucket", "CloudTrail",
       "LambdaErrorAlarm", "ApiGateway5xxAlarm", "ApiGateway4xxAlarm",
       "CanaryFailureAlarm"] := rfl
  have halarms : ((mkStack i).alarms).map (fun a => MetricRef.resource a.metric) =
      ["ApiHandler", "Endpoint", "Endpoint", "ApiCanary"] := rfl
  refine ⟨rfl, ?_⟩
  intro a hmem
  have hres : MetricRef.resource a.metric ∈
      ((mkStack i).alarms).map (fun a => MetricRef.resource a.metric) :=
    List.mem_map_of_mem _ hmem
  rw [halarms] at hres
  rw [hids]
  simp only [List.mem_cons, List.not_mem_nil, or_false] at hres
  rcases hres with h | h | h | h <;> rw [h] <;> decide

/-- C7 counterexample: at a concrete input, it is not the case that the
hard-coded name "demo_table" is both the table's construct id and its
physical table name — the declaration passes no `table_name`, so the
physical name is provider-generated, not the fixed literal. -/
theorem c7_counterexample :
    ¬ ((mkStack { scope := "app", construct_id := "TestStack", kwargs := [] }).demo_table.construct_id
          = TABLE_NAME ∧
       TableProps.physical_name
          (mkStack { scope := "app", construct_id := "TestStack", kwargs := [] }).demo_table
          = PhysicalName.fixed TABLE_NAME) := by
  decide

/-- C7 (amended): the hard-coded name "demo_table" is used as the table's
construct id (logical identifier) only; no explicit physical table name is
declared, so the physical name is provider-generated from that logical id
rather than being the fixed literal "demo_table". -/
theorem c7_amended_logical_id_only (i : StackInputs) :
    (mkStack i).demo_table.construct_id = TABLE_NAME ∧
    (mkStack i).demo_table.table_name = none ∧
    TableProps.physical_name (mkStack i).demo_table =
      PhysicalName.generated TABLE_NAME ∧
    TableProps.physical_name (mkStack i).demo_table ≠
      PhysicalName.fixed TABLE_NAME :=
  ⟨rfl, rfl, rfl, by
    show PhysicalName.generated TABLE_NAME ≠ PhysicalName.fixed TABLE_NAME
    decide⟩

/-- C8: the synthetic checker is a scheduled (rate of 5 minutes,
auto-started) browser-driven (Selenium runtime) canary whose inline script
is exactly the fixed script text with the public REST API's URL token
interpolated at the probe-target position. -/
theorem c8_canary_scheduled_probe (i : StackInputs) :
    (mkStack i).canary.schedule = { minutes := 5 } ∧
    (mkStack i).canary.enable_auto_start = true ∧
    (mkStack i).canary.runtime =
      SyntheticsRuntime.SYNTHETICS_PYTHON_SELENIUM_3_0 ∧
    (mkStack i).canary.test.handler = "handler" ∧
    (mkStack i).canary.test.code =
      canary_script (LambdaRestApiProps.url (mkStack i).api) ∧
    (mkStack i).canary.test.code =
      canary_script_pre ++ LambdaRestApiProps.url (mkStack i).api ++
        canary_script_post :=
  ⟨rfl, rfl, rfl, rfl, rfl, rfl⟩

/-- C9: the stack construction is deterministic — evaluating the declaration
twice with identical inputs (same scope, construct id and kwargs) produces
identical resource graphs, since the constructor depends on nothing outside
its arguments. -/
theorem c9_mkStack_deterministic (i1 i2 : StackInputs) (h : i1 = i2) :
    mkStack i1 = mkStack i2 := by
  rw [h]

/-- C9 witness: the determinism theorem applied at a concrete input. -/
theorem c9_mkStack_deterministic_witness :
    mkStack { scope := "app", construct_id := "TestStack", kwargs := [] } =
    mkStack { scope := "app", construct_id := "TestStack", kwargs := [] } :=
  c9_mkStack_deterministic
    { scope := "app", construct_id := "TestStack", kwargs := [] }
    { scope := "app", construct_id := "TestStack", kwargs := [] }
    rfl

/-- C10: the Lambda function is declared with the hard-coded physical name
"apigw_handler", while the table declares no physical name (it is
provider-generated); the function receives the table's name through the
TABLE_NAME environment variable as a deploy-time token referencing the
table, not as the literal "demo_table". -/
theorem c10_lambda_fixed_name_table_generated (i : StackInputs) :
    (mkStack i).api_hanlder.function_name = some "apigw_handler" ∧
    (mkStack i).demo_table.table_name = none ∧
    TableProps.physical_name (mkStack i).demo_table =
      PhysicalName.generated (mkStack i).demo_table.construct_id ∧
    (mkStack i).api_hanlder.environment =
      [("TABLE_NAME",
        EnvValue.token
          (CdkToken.table_name_of (mkStack i).demo_table.construct_id))] ∧
    EnvValue.token (CdkToken.table_name_of TABLE_NAME) ≠
      EnvValue.lit TABLE_NAME :=
  ⟨rfl, rfl, rfl, rfl, by decide⟩

end Claims
